import Mathlib

/-!
Shallow embedding of the MiniShootout game controller (src/game.ts).

The controller wraps the Matter.js physics engine; we embed the
controller's own state and the handlers the specification talks about:
gesture interpretation (handlePointerUp / shootBall), goal detection
(handleGoal), the post-step observer (afterUpdate), resets
(resetBall / resetBallScale) and the perspective-scale function
(applyPerspectiveScale).  JavaScript numbers are modelled as real
numbers; Math.hypot is sqrt of the sum of squares and Math.pow is rpow.
The outbound onScoreChange callback is modelled as a log of the values
it was invoked with (most recent first); the setTimeout scheduled after
a goal is modelled as a pending-reset flag.  The Matter body's actual
circle radius (mutated by Matter.Body.scale) is tracked in bodyRadius,
next to the controller's own currentRadius bookkeeping field; the
render-sprite x/y scales always mirror currentSpriteScale in the code
(they are assigned together at every site), so only currentSpriteScale
is tracked.
-/

open Classical

/-- A 2-D point, as the `Point` type in game.ts. -/
structure Point where
  x : ℝ
  y : ℝ

/-- Math.hypot on two arguments. -/
noncomputable def hypot (a b : ℝ) : ℝ := Real.sqrt (a ^ 2 + b ^ 2)

/-- `baseBallRadius = 56` (game.ts line 28). -/
def baseBallRadius : ℝ := 56

/-- `baseSpriteSize = 194` (game.ts line 29). -/
def baseSpriteSize : ℝ := 194

/-- `baseSpriteScale = baseBallRadius * 2 / baseSpriteSize` (game.ts line 30). -/
noncomputable def baseSpriteScale : ℝ := baseBallRadius * 2 / baseSpriteSize

/-- The mutable state of the MiniShootout controller relevant to the
gameplay logic. -/
structure GameState where
  score : ℤ
  scored : Bool
  hadUpwardMotion : Bool
  ballStatic : Bool
  ballPos : Point
  ballVel : Point
  ballAngularVel : ℝ
  currentRadius : ℝ
  currentSpriteScale : ℝ
  bodyRadius : ℝ
  pointerStart : Option Point
  ballStart : Point
  viewportWidth : ℝ
  viewportHeight : ℝ
  goalWidth : ℝ
  goalThickness : ℝ
  callbackLog : List ℤ
  pendingReset : Bool

/-- `resetBallScale` (game.ts lines 291-302): compute `factor =
baseBallRadius / currentRadius`; rescale the physical body only when
`|factor - 1| > 0.001`; then restore the bookkeeping radius and the
sprite scale to their base values. -/
noncomputable def resetBallScale (s : GameState) : GameState :=
  let factor := baseBallRadius / s.currentRadius
  let s1 := if |factor - 1| > 0.001 then
      { s with bodyRadius := s.bodyRadius * factor }
    else s
  { s1 with currentRadius := baseBallRadius,
            currentSpriteScale := baseSpriteScale }

/-- `resetBall` (game.ts lines 275-289): freeze the body, restore the
scale, reposition to the start point, zero velocity and angular
velocity; on a miss, zero the score (the write is guarded by
`score !== 0`) and invoke the score callback unconditionally; finally
clear the scored and had-upward-motion flags. -/
noncomputable def resetBall (s : GameState) (missed : Bool) : GameState :=
  let s1 := resetBallScale { s with ballStatic := true }
  let s2 := { s1 with ballPos := s1.ballStart,
                      ballVel := ⟨0, 0⟩,
                      ballAngularVel := 0 }
  let s3 := if missed then
      let s2a := if s2.score ≠ 0 then { s2 with score := 0 } else s2
      { s2a with callbackLog := s2a.score :: s2a.callbackLog }
    else s2
  { s3 with scored := false, hadUpwardMotion := false }

/-- `shootBall` (game.ts lines 186-213): ignore unless the ball is
static; clear the scored flag, reset the scale, unfreeze, reposition to
the start, clear had-upward-motion; scale the drag vector by 0.3, clamp
the speed to 32 by uniform scaling, set the velocity, zero the angular
velocity, and set had-upward-motion when the resulting vertical
velocity is below -4. -/
noncomputable def shootBall (s : GameState) (delta : Point) : GameState :=
  if s.ballStatic = false then s
  else
    let s1 := resetBallScale { s with scored := false }
    let s2 := { s1 with ballStatic := false,
                        ballPos := s1.ballStart,
                        hadUpwardMotion := false }
    let vx := delta.x * 0.3
    let vy := delta.y * 0.3
    let magnitude := hypot vx vy
    let vx2 := if magnitude > 32 then vx * (32 / magnitude) else vx
    let vy2 := if magnitude > 32 then vy * (32 / magnitude) else vy
    let s3 := { s2 with ballVel := ⟨vx2, vy2⟩, ballAngularVel := 0 }
    if vy2 < -4 then { s3 with hadUpwardMotion := true } else s3

/-- `handlePointerUp` (game.ts lines 165-184) for a primary pointer
event ending at `endP`: if no pointer-down origin was recorded, do
nothing; otherwise consume the origin, and fire a shot only when the
drag distance is at least 30 and the upward travel at least 20. -/
noncomputable def handlePointerUp (s : GameState) (endP : Point) : GameState :=
  match s.pointerStart with
  | none => s
  | some start =>
      let dx := endP.x - start.x
      let dy := endP.y - start.y
      let distance := hypot dx dy
      let upwardTravel := start.y - endP.y
      let s1 := { s with pointerStart := none }
      if distance < 30 ∨ upwardTravel < 20 then s1
      else shootBall s1 ⟨dx, dy⟩

/-- The horizontal acceptance test of `handleGoal` (game.ts lines
254-259): the ball's x position is strictly between the goal mouth's
inner bounds shrunk by 0.6 of the current radius on each side. -/
def withinPosts (s : GameState) : Prop :=
  let goalCenterX := s.viewportWidth / 2
  let innerLeft := goalCenterX - (s.goalWidth / 2 - s.goalThickness)
  let innerRight := goalCenterX + (s.goalWidth / 2 - s.goalThickness)
  s.ballPos.x > innerLeft + s.currentRadius * 0.6 ∧
    s.ballPos.x < innerRight - s.currentRadius * 0.6

/-- The motion acceptance test of `handleGoal` (game.ts line 260): the
vertical velocity is upward (< -2) or the had-upward-motion flag is
set. -/
def movingTowardGoal (s : GameState) : Prop :=
  s.ballVel.y < -2 ∨ s.hadUpwardMotion = true

/-- `handleGoal` (game.ts lines 251-273), invoked on a collision-start
event pairing the ball with the goal sensor: ignore when already
scored; reject unless both acceptance tests pass; on acceptance mark
scored, increment the score, invoke the callback with the new score,
and schedule the delayed (600 ms) non-miss reset. -/
noncomputable def handleGoal (s : GameState) : GameState :=
  if s.scored then s
  else if withinPosts s ∧ movingTowardGoal s then
    { s with scored := true,
             score := s.score + 1,
             callbackLog := (s.score + 1) :: s.callbackLog,
             pendingReset := true }
  else s

/-- The pure perspective-scale computation of `applyPerspectiveScale`
(game.ts lines 308-317) as a function of the viewport height, the
resting y (`ballStart.y`, the bottom reference) and the ball's current
y position. -/
noncomputable def perspectiveScale (height bottomY yPos : ℝ) : ℝ :=
  let clampedY := min (max yPos 0) height
  let topY := max 60 (height * 0.18)
  let range := max (bottomY - topY) 1
  let normalized := min (max ((clampedY - topY) / range) 0) 1
  let minScale : ℝ := 0.78
  let maxScale : ℝ := 1
  let eased := normalized ^ (0.65 : ℝ)
  minScale + (maxScale - minScale) * eased

/-- `applyPerspectiveScale` (game.ts lines 304-332): skip on a
degenerate viewport; compute the target radius from the perspective
scale; skip when within the 0.2 deadband of the current radius;
otherwise rescale the physical body by target/current, record the new
radius, and accumulate the same factor into the sprite scale. -/
noncomputable def applyPerspectiveScale (s : GameState) : GameState :=
  if s.viewportHeight ≤ 0 then s
  else
    let targetRadius :=
      baseBallRadius * perspectiveScale s.viewportHeight s.ballStart.y s.ballPos.y
    if |targetRadius - s.currentRadius| < 0.2 then s
    else
      let factor := targetRadius / s.currentRadius
      { s with bodyRadius := s.bodyRadius * factor,
               currentRadius := targetRadius,
               currentSpriteScale := s.currentSpriteScale * factor }

/-- The out-of-bounds test of the afterUpdate observer (game.ts lines
236-240): the ball's center lies more than 200 units beyond a viewport
edge. -/
def ballOutOfBounds (s : GameState) : Prop :=
  s.ballPos.x < -200 ∨ s.ballPos.x > s.viewportWidth + 200 ∨
    s.ballPos.y > s.viewportHeight + 200 ∨ s.ballPos.y < -200

/-- The `afterUpdate` observer (game.ts lines 227-248), run once per
simulation step: track the monotonic had-upward-motion flag, apply the
perspective scale, and, while the ball is live, resolve the flight as
soon as it is out of bounds or its speed drops below 2 — a miss exactly
when no goal was registered. -/
noncomputable def afterUpdate (s : GameState) : GameState :=
  let s1 := if s.ballStatic = false ∧ s.ballVel.y < -4 then
      { s with hadUpwardMotion := true }
    else s
  let s2 := applyPerspectiveScale s1
  if s2.ballStatic then s2
  else
    let speed := hypot s2.ballVel.x s2.ballVel.y
    if ballOutOfBounds s2 ∨ speed < 2 then resetBall s2 (!s2.scored) else s2

/-- The sprite/body consistency invariant (spec §3, §4.3): the
accumulated sprite scale equals the base sprite scale times the ratio
of the current radius to the base radius. -/
noncomputable def spriteConsistent (s : GameState) : Prop :=
  s.currentSpriteScale = baseSpriteScale * (s.currentRadius / baseBallRadius)

/-- A concrete controller state for instantiating the theorems: the
aiming state of a 400x700 viewport right after construction (resting
position (200, 700 - 56 - 90), goal width 220). -/
noncomputable def exBase : GameState :=
  { score := 0, scored := false, hadUpwardMotion := false, ballStatic := true,
    ballPos := ⟨200, 554⟩, ballVel := ⟨0, 0⟩, ballAngularVel := 0,
    currentRadius := baseBallRadius, currentSpriteScale := baseSpriteScale,
    bodyRadius := baseBallRadius, pointerStart := none, ballStart := ⟨200, 554⟩,
    viewportWidth := 400, viewportHeight := 700, goalWidth := 220,
    goalThickness := 18, callbackLog := [], pendingReset := false }

theorem applyPerspectiveScale_fields (s : GameState) :
    (applyPerspectiveScale s).ballPos = s.ballPos
    ∧ (applyPerspectiveScale s).ballVel = s.ballVel
    ∧ (applyPerspectiveScale s).ballStatic = s.ballStatic
    ∧ (applyPerspectiveScale s).score = s.score
    ∧ (applyPerspectiveScale s).scored = s.scored
    ∧ (applyPerspectiveScale s).callbackLog = s.callbackLog
    ∧ (applyPerspectiveScale s).viewportWidth = s.viewportWidth
    ∧ (applyPerspectiveScale s).viewportHeight = s.viewportHeight
    ∧ (applyPerspectiveScale s).ballStart = s.ballStart
    ∧ (applyPerspectiveScale s).hadUpwardMotion = s.hadUpwardMotion := by
  unfold applyPerspectiveScale
  dsimp only
  split_ifs <;> simp

theorem resetBall_effects (s : GameState) (m : Bool) :
    (resetBall s m).ballStatic = true
    ∧ (resetBall s m).ballPos = s.ballStart
    ∧ (resetBall s m).ballVel = ⟨0, 0⟩
    ∧ (resetBall s m).ballAngularVel = 0
    ∧ (resetBall s m).currentRadius = baseBallRadius
    ∧ (resetBall s m).currentSpriteScale = baseSpriteScale
    ∧ (resetBall s m).scored = false
    ∧ (resetBall s m).hadUpwardMotion = false
    ∧ (resetBall s true).score = 0
    ∧ (resetBall s true).callbackLog = 0 :: s.callbackLog
    ∧ (resetBall s false).score = s.score
    ∧ (resetBall s false).callbackLog = s.callbackLog := by
  unfold resetBall resetBallScale
  dsimp only
  split_ifs <;> simp_all

theorem hypot_nonneg (a b : ℝ) : 0 ≤ hypot a b := Real.sqrt_nonneg _

theorem hypot_scale (a b c : ℝ) (hc : 0 ≤ c) :
    hypot (a * c) (b * c) = hypot a b * c := by
  unfold hypot
  have h : (a * c) ^ 2 + (b * c) ^ 2 = (a ^ 2 + b ^ 2) * c ^ 2 := by ring
  rw [h, Real.sqrt_mul (by positivity) (c ^ 2), Real.sqrt_sq hc]

theorem handleGoal_noop_helper (s : GameState) (h : s.scored = false)
    (hc : ¬ (withinPosts s ∧ movingTowardGoal s)) : handleGoal s = s := by
  simp [handleGoal, h, hc]

theorem handleGoal_accept_helper (s : GameState) (h : s.scored = false)
    (hc : withinPosts s ∧ movingTowardGoal s) :
    handleGoal s = { s with scored := true, score := s.score + 1,
                            callbackLog := (s.score + 1) :: s.callbackLog,
                            pendingReset := true } := by
  simp [handleGoal, h, hc]

/-- C1: a goal is counted at most once per flight.  While the scored
flag is set, a further ball/goal-sensor collision event leaves the
state completely unchanged — in particular the score, the scored flag
and the callback log are untouched. -/
theorem handleGoal_already_scored (s : GameState) (h : s.scored = true) :
    handleGoal s = s := by
  simp [handleGoal, h]

theorem handleGoal_already_scored_witness :
    ({ exBase with scored := true } : GameState).scored = true
    ∧ handleGoal { exBase with scored := true } = { exBase with scored := true } :=
  ⟨rfl, handleGoal_already_scored { exBase with scored := true } rfl⟩

/-- C10: a rejected ball/goal-sensor collision event (already scored,
or failing the horizontal containment test, or failing the
upward-motion test) makes `handleGoal` a complete no-op on the state:
score, scored flag, had-upward-motion flag, ball body fields, callback
log and the pending-reset timer flag are all unchanged. -/
theorem handleGoal_rejected_noop (s : GameState)
    (hrej : s.scored = true ∨ ¬ withinPosts s ∨ ¬ movingTowardGoal s) :
    handleGoal s = s := by
  rcases hrej with h | h | h
  · simp [handleGoal, h]
  · by_cases hs : s.scored = true
    · simp [handleGoal, hs]
    · exact handleGoal_noop_helper s (by simpa using hs) (by tauto)
  · by_cases hs : s.scored = true
    · simp [handleGoal, hs]
    · exact handleGoal_noop_helper s (by simpa using hs) (by tauto)

theorem handleGoal_rejected_noop_witness :
    (exBase.scored = true ∨ ¬ withinPosts exBase ∨ ¬ movingTowardGoal exBase)
    ∧ handleGoal exBase = exBase :=
  ⟨Or.inr (Or.inr (by norm_num [movingTowardGoal, exBase])),
   handleGoal_rejected_noop exBase
     (Or.inr (Or.inr (by norm_num [movingTowardGoal, exBase])))⟩

/-- C2: during an unscored flight, a ball/goal-sensor collision event
registers a goal (scored flag set and score incremented) if and only if
the ball's horizontal position is strictly inside
[goalCenter - (goalWidth/2 - goalThickness) + 0.6*currentRadius,
 goalCenter + (goalWidth/2 - goalThickness) - 0.6*currentRadius]
and the vertical velocity is < -2 or the had-upward-motion flag is set;
in particular a ball crossing the sensor while not moving upward that
never moved upward this flight does not score. -/
theorem handleGoal_accept_iff (s : GameState) (h : s.scored = false) :
    ((handleGoal s).scored = true ∧ (handleGoal s).score = s.score + 1
      ↔ (s.viewportWidth / 2 - (s.goalWidth / 2 - s.goalThickness)
            + 0.6 * s.currentRadius < s.ballPos.x
          ∧ s.ballPos.x < s.viewportWidth / 2 + (s.goalWidth / 2 - s.goalThickness)
            - 0.6 * s.currentRadius)
        ∧ (s.ballVel.y < -2 ∨ s.hadUpwardMotion = true))
    ∧ (¬ s.ballVel.y < -2 → s.hadUpwardMotion = false → handleGoal s = s) := by
  constructor
  · by_cases hc : withinPosts s ∧ movingTowardGoal s
    · rw [handleGoal_accept_helper s h hc]
      obtain ⟨hw, hm⟩ := hc
      simp only [withinPosts] at hw
      simp only [movingTowardGoal] at hm
      constructor
      · intro _
        exact ⟨⟨by linarith [hw.1], by linarith [hw.2]⟩, hm⟩
      · intro _
        simp
    · rw [handleGoal_noop_helper s h hc]
      constructor
      · intro hcontr
        rw [h] at hcontr
        exact absurd hcontr.1 (by simp)
      · intro hr
        exfalso
        apply hc
        refine ⟨?_, ?_⟩
        · simp only [withinPosts]
          exact ⟨by linarith [hr.1.1], by linarith [hr.1.2]⟩
        · simp only [movingTowardGoal]
          exact hr.2
  · intro hv hm
    apply handleGoal_noop_helper s h
    rintro ⟨-, hmv⟩
    simp only [movingTowardGoal] at hmv
    rcases hmv with h2 | h2
    · exact hv h2
    · rw [hm] at h2
      exact absurd h2 (by simp)

theorem handleGoal_accept_iff_witness :
    exBase.scored = false
    ∧ (((handleGoal exBase).scored = true
          ∧ (handleGoal exBase).score = exBase.score + 1
        ↔ (exBase.viewportWidth / 2 - (exBase.goalWidth / 2 - exBase.goalThickness)
              + 0.6 * exBase.currentRadius < exBase.ballPos.x
            ∧ exBase.ballPos.x < exBase.viewportWidth / 2
              + (exBase.goalWidth / 2 - exBase.goalThickness)
              - 0.6 * exBase.currentRadius)
          ∧ (exBase.ballVel.y < -2 ∨ exBase.hadUpwardMotion = true))
      ∧ (¬ exBase.ballVel.y < -2 → exBase.hadUpwardMotion = false
          → handleGoal exBase = exBase)) :=
  ⟨rfl, handleGoal_accept_iff exBase rfl⟩

/-- C4: a completed pointer gesture whose drag distance is below 30 or
whose upward travel is below 20 fires no shot: the only effect of
`handlePointerUp` is consuming the recorded pointer origin, so the
ball's static flag, position, velocity, the score and every flag are
unchanged. -/
theorem handlePointerUp_rejected (s : GameState) (p0 endP : Point)
    (hst : s.pointerStart = some p0)
    (hrej : hypot (endP.x - p0.x) (endP.y - p0.y) < 30 ∨ p0.y - endP.y < 20) :
    handlePointerUp s endP = { s with pointerStart := none } := by
  unfold handlePointerUp
  rw [hst]
  dsimp only
  rw [if_pos hrej]

theorem handlePointerUp_rejected_witness :
    ({ exBase with pointerStart := some ⟨200, 600⟩ } : GameState).pointerStart
        = some ⟨200, 600⟩
    ∧ (hypot ((⟨200, 650⟩ : Point).x - (⟨200, 600⟩ : Point).x)
          ((⟨200, 650⟩ : Point).y - (⟨200, 600⟩ : Point).y) < 30
        ∨ (⟨200, 600⟩ : Point).y - (⟨200, 650⟩ : Point).y < 20)
    ∧ handlePointerUp { exBase with pointerStart := some ⟨200, 600⟩ } ⟨200, 650⟩
        = { exBase with pointerStart := none } :=
  ⟨rfl, Or.inr (by norm_num),
   handlePointerUp_rejected { exBase with pointerStart := some ⟨200, 600⟩ }
     ⟨200, 600⟩ ⟨200, 650⟩ rfl (Or.inr (by norm_num))⟩

/-- C5 counterexample: a miss reset taken in a state whose score is
already 0 still invokes the score callback (with 0) — the callback log
grows — contradicting the claim that the callback is not invoked in
this case. -/
theorem resetBall_callback_at_zero :
    exBase.score = 0 ∧ exBase.callbackLog = []
    ∧ (resetBall exBase true).callbackLog = [0] := by
  refine ⟨rfl, rfl, ?_⟩
  have h := (resetBall_effects exBase true).2.2.2.2.2.2.2.2.2.1
  simpa using h

/-- C5 (amended): on a miss reset the score is always 0 afterwards (the
write is skipped when it is already 0), and the score callback fires
exactly once per miss reset, always with the value 0 — even when the
score was already 0; a non-miss reset leaves the score and the callback
log untouched. -/
theorem resetBall_miss_callback (s : GameState) :
    (resetBall s true).score = 0
    ∧ (resetBall s true).callbackLog = 0 :: s.callbackLog
    ∧ (resetBall s false).score = s.score
    ∧ (resetBall s false).callbackLog = s.callbackLog := by
  have h := resetBall_effects s true
  exact ⟨h.2.2.2.2.2.2.2.2.1, h.2.2.2.2.2.2.2.2.2.1,
    h.2.2.2.2.2.2.2.2.2.2.1, h.2.2.2.2.2.2.2.2.2.2.2⟩

theorem resetBallScale_bodyRadius (s : GameState)
    (hb : s.bodyRadius = s.currentRadius) (hr : 0 < s.currentRadius) :
    |(resetBallScale s).bodyRadius - baseBallRadius| ≤ 0.06 := by
  have hkey : baseBallRadius / s.currentRadius * s.currentRadius = baseBallRadius :=
    div_mul_cancel₀ _ (ne_of_gt hr)
  unfold resetBallScale
  dsimp only
  split_ifs with hcase
  · dsimp only
    rw [hb, mul_comm, hkey]
    norm_num
  · push_neg at hcase
    rw [abs_le] at hcase
    obtain ⟨h1, h2⟩ := hcase
    have a1 : (baseBallRadius / s.currentRadius - 1) * s.currentRadius
        ≤ 0.001 * s.currentRadius := mul_le_mul_of_nonneg_right h2 hr.le
    have a2 : -(0.001) * s.currentRadius
        ≤ (baseBallRadius / s.currentRadius - 1) * s.currentRadius := by
      apply mul_le_mul_of_nonneg_right _ hr.le
      linarith
    rw [sub_mul, hkey, one_mul] at a1 a2
    rw [hb, abs_le]
    simp only [baseBallRadius] at a1 a2 ⊢
    constructor <;> nlinarith

/-- C6: after any reset, miss or goal, the ball is static at the start
position, the bookkeeping radius and the sprite scale equal their base
values, the physical body radius equals the base radius up to the 0.001
rescale deadband (at most 0.06 units away), velocity and angular
velocity are exactly zero, and the scored and had-upward-motion flags
are cleared. -/
theorem resetBall_restores_base (s : GameState) (m : Bool)
    (hb : s.bodyRadius = s.currentRadius) (hr : 0 < s.currentRadius) :
    (resetBall s m).ballStatic = true
    ∧ (resetBall s m).ballPos = s.ballStart
    ∧ (resetBall s m).ballVel = ⟨0, 0⟩
    ∧ (resetBall s m).ballAngularVel = 0
    ∧ (resetBall s m).currentRadius = baseBallRadius
    ∧ (resetBall s m).currentSpriteScale = baseSpriteScale
    ∧ |(resetBall s m).bodyRadius - baseBallRadius| ≤ 0.06
    ∧ (resetBall s m).scored = false
    ∧ (resetBall s m).hadUpwardMotion = false := by
  have h := resetBall_effects s m
  refine ⟨h.1, h.2.1, h.2.2.1, h.2.2.2.1, h.2.2.2.2.1, h.2.2.2.2.2.1, ?_,
    h.2.2.2.2.2.2.1, h.2.2.2.2.2.2.2.1⟩
  have e : (resetBall s m).bodyRadius
      = (resetBallScale { s with ballStatic := true }).bodyRadius := by
    unfold resetBall
    dsimp only
    split_ifs <;> rfl
  rw [e]
  exact resetBallScale_bodyRadius _ hb hr

theorem resetBall_restores_base_witness :
    ({ exBase with currentRadius := 50, bodyRadius := 50 } : GameState).bodyRadius
        = ({ exBase with currentRadius := 50, bodyRadius := 50 } : GameState).currentRadius
    ∧ (0 : ℝ) < ({ exBase with currentRadius := 50, bodyRadius := 50 } : GameState).currentRadius
    ∧ (resetBall { exBase with currentRadius := 50, bodyRadius := 50 } true).ballStatic = true
    ∧ (resetBall { exBase with currentRadius := 50, bodyRadius := 50 } true).currentRadius
        = baseBallRadius
    ∧ |(resetBall { exBase with currentRadius := 50, bodyRadius := 50 } true).bodyRadius
        - baseBallRadius| ≤ 0.06 := by
  have h := resetBall_restores_base { exBase with currentRadius := 50, bodyRadius := 50 }
    true rfl (by norm_num)
  exact ⟨rfl, by norm_num, h.1, h.2.2.2.2.1, h.2.2.2.2.2.2.1⟩

theorem shootBall_vel_helper (s : GameState) (d : Point) (h : s.ballStatic = true) :
    (shootBall s d).ballVel =
      (if hypot (d.x * 0.3) (d.y * 0.3) > 32 then
         (⟨d.x * 0.3 * (32 / hypot (d.x * 0.3) (d.y * 0.3)),
           d.y * 0.3 * (32 / hypot (d.x * 0.3) (d.y * 0.3))⟩ : Point)
       else ⟨d.x * 0.3, d.y * 0.3⟩)
    ∧ (shootBall s d).ballAngularVel = 0 := by
  unfold shootBall
  simp only [h]
  rw [if_neg (show ¬ (true = false) by simp)]
  constructor
  · split_ifs <;> rfl
  · split_ifs <;> rfl

/-- C3: for a shot fired from the aiming state with drag vector d, the
initial velocity is 0.3*d when that vector's magnitude is at most 32,
and otherwise 0.3*d uniformly rescaled (same direction) to magnitude
exactly 32; hence the launch speed never exceeds 32, and the angular
velocity is set to 0. -/
theorem shootBall_velocity (s : GameState) (d : Point) (h : s.ballStatic = true) :
    (hypot (d.x * 0.3) (d.y * 0.3) ≤ 32 →
       (shootBall s d).ballVel = ⟨d.x * 0.3, d.y * 0.3⟩)
    ∧ (32 < hypot (d.x * 0.3) (d.y * 0.3) →
       (shootBall s d).ballVel
           = ⟨d.x * 0.3 * (32 / hypot (d.x * 0.3) (d.y * 0.3)),
              d.y * 0.3 * (32 / hypot (d.x * 0.3) (d.y * 0.3))⟩
         ∧ hypot (shootBall s d).ballVel.x (shootBall s d).ballVel.y = 32)
    ∧ hypot (shootBall s d).ballVel.x (shootBall s d).ballVel.y ≤ 32
    ∧ (shootBall s d).ballAngularVel = 0 := by
  obtain ⟨hv, ha⟩ := shootBall_vel_helper s d h
  by_cases hm : hypot (d.x * 0.3) (d.y * 0.3) > 32
  · rw [if_pos hm] at hv
    have hmpos : 0 < hypot (d.x * 0.3) (d.y * 0.3) := by linarith
    have hs32 : hypot (d.x * 0.3 * (32 / hypot (d.x * 0.3) (d.y * 0.3)))
        (d.y * 0.3 * (32 / hypot (d.x * 0.3) (d.y * 0.3))) = 32 := by
      rw [hypot_scale _ _ _ (by positivity)]
      rw [mul_comm, div_mul_cancel₀ _ (ne_of_gt hmpos)]
    refine ⟨fun hle => absurd hm (not_lt.mpr hle), fun _ => ⟨hv, ?_⟩, ?_, ha⟩
    · rw [hv]
      exact hs32
    · rw [hv]
      rw [show ((⟨d.x * 0.3 * (32 / hypot (d.x * 0.3) (d.y * 0.3)),
          d.y * 0.3 * (32 / hypot (d.x * 0.3) (d.y * 0.3))⟩ : Point)).x
            = d.x * 0.3 * (32 / hypot (d.x * 0.3) (d.y * 0.3)) from rfl]
      rw [show ((⟨d.x * 0.3 * (32 / hypot (d.x * 0.3) (d.y * 0.3)),
          d.y * 0.3 * (32 / hypot (d.x * 0.3) (d.y * 0.3))⟩ : Point)).y
            = d.y * 0.3 * (32 / hypot (d.x * 0.3) (d.y * 0.3)) from rfl]
      rw [hs32]
  · rw [if_neg hm] at hv
    push_neg at hm
    refine ⟨fun _ => hv, fun hlt => absurd hlt (not_lt.mpr hm), ?_, ha⟩
    rw [hv]
    exact hm

theorem shootBall_velocity_witness :
    exBase.ballStatic = true
    ∧ hypot (shootBall exBase ⟨0, -300⟩).ballVel.x
        (shootBall exBase ⟨0, -300⟩).ballVel.y ≤ 32
    ∧ (shootBall exBase ⟨0, -300⟩).ballAngularVel = 0 :=
  ⟨rfl, (shootBall_velocity exBase ⟨0, -300⟩ rfl).2.2.1,
    (shootBall_velocity exBase ⟨0, -300⟩ rfl).2.2.2⟩

theorem perspectiveScale_mono (height bottomY y1 y2 : ℝ) (h12 : y1 ≤ y2) :
    perspectiveScale height bottomY y1 ≤ perspectiveScale height bottomY y2 := by
  simp only [perspectiveScale]
  have hrange : (0:ℝ) < max (bottomY - max 60 (height * 0.18)) 1 :=
    lt_of_lt_of_le one_pos (le_max_right _ _)
  have hclamp : min (max y1 0) height ≤ min (max y2 0) height :=
    min_le_min (max_le_max h12 le_rfl) le_rfl
  have hdiv : (min (max y1 0) height - max 60 (height * 0.18))
        / max (bottomY - max 60 (height * 0.18)) 1
      ≤ (min (max y2 0) height - max 60 (height * 0.18))
        / max (bottomY - max 60 (height * 0.18)) 1 := by
    apply (div_le_div_iff_of_pos_right hrange).mpr
    linarith
  have hnorm : min (max ((min (max y1 0) height - max 60 (height * 0.18))
        / max (bottomY - max 60 (height * 0.18)) 1) 0) 1
      ≤ min (max ((min (max y2 0) height - max 60 (height * 0.18))
        / max (bottomY - max 60 (height * 0.18)) 1) 0) 1 :=
    min_le_min (max_le_max hdiv le_rfl) le_rfl
  have h0 : (0:ℝ) ≤ min (max ((min (max y1 0) height - max 60 (height * 0.18))
        / max (bottomY - max 60 (height * 0.18)) 1) 0) 1 :=
    le_min (le_max_right _ _) zero_le_one
  have hr := Real.rpow_le_rpow h0 hnorm (by norm_num : (0:ℝ) ≤ 0.65)
  nlinarith [hr]

theorem perspectiveScale_bounds (height bottomY yPos : ℝ) :
    0.78 ≤ perspectiveScale height bottomY yPos
    ∧ perspectiveScale height bottomY yPos ≤ 1 := by
  simp only [perspectiveScale]
  have h0 : (0:ℝ) ≤ min (max ((min (max yPos 0) height - max 60 (height * 0.18))
        / max (bottomY - max 60 (height * 0.18)) 1) 0) 1 :=
    le_min (le_max_right _ _) zero_le_one
  have h1 : min (max ((min (max yPos 0) height - max 60 (height * 0.18))
        / max (bottomY - max 60 (height * 0.18)) 1) 0) 1 ≤ 1 := min_le_right _ _
  have he0 : (0:ℝ) ≤ (min (max ((min (max yPos 0) height - max 60 (height * 0.18))
        / max (bottomY - max 60 (height * 0.18)) 1) 0) 1) ^ (0.65:ℝ) :=
    Real.rpow_nonneg h0 _
  have he1 : (min (max ((min (max yPos 0) height - max 60 (height * 0.18))
        / max (bottomY - max 60 (height * 0.18)) 1) 0) 1) ^ (0.65:ℝ) ≤ 1 :=
    Real.rpow_le_one h0 h1 (by norm_num)
  constructor <;> nlinarith

/-- C7: the perspective scale is monotone in the vertical position and
bounded: for y1 < y2, both between the top reference (the max of 60 and
18% of the viewport height) and the bottom reference (the ball's
resting y), scale(y1) ≤ scale(y2) ≤ 1, and for every y the computed
scale lies within [0.78, 1]. -/
theorem perspectiveScale_monotone_bounded (height bottomY y1 y2 : ℝ)
    (_htop : max 60 (height * 0.18) ≤ y1) (h12 : y1 < y2) (_hbot : y2 ≤ bottomY) :
    perspectiveScale height bottomY y1 ≤ perspectiveScale height bottomY y2
    ∧ perspectiveScale height bottomY y2 ≤ 1
    ∧ ∀ yPos, 0.78 ≤ perspectiveScale height bottomY yPos
        ∧ perspectiveScale height bottomY yPos ≤ 1 :=
  ⟨perspectiveScale_mono height bottomY y1 y2 h12.le,
   (perspectiveScale_bounds height bottomY y2).2,
   fun yPos => perspectiveScale_bounds height bottomY yPos⟩

theorem perspectiveScale_monotone_bounded_witness :
    max (60:ℝ) (700 * 0.18) ≤ 300 ∧ (300:ℝ) < 400 ∧ (400:ℝ) ≤ 554
    ∧ perspectiveScale 700 554 300 ≤ perspectiveScale 700 554 400
    ∧ perspectiveScale 700 554 400 ≤ 1
    ∧ 0.78 ≤ perspectiveScale 700 554 300 :=
  have h := perspectiveScale_monotone_bounded 700 554 300 400
    (max_le (by norm_num) (by norm_num)) (by norm_num) (by norm_num)
  ⟨max_le (by norm_num) (by norm_num), by norm_num, by norm_num,
   h.1, h.2.1, (h.2.2 300).1⟩

/-- C8: while the ball is live, the post-step observer resolves the
flight exactly when the ball's center is more than 200 units beyond a
viewport edge or its speed magnitude is below 2; when the flight
registered no goal the resolution is a miss reset, forcing the score to
0 and reporting it to the callback; otherwise the observer leaves the
ball live and the score untouched. -/
theorem afterUpdate_resolution (s : GameState) (h : s.ballStatic = false) :
    ((ballOutOfBounds s ∨ hypot s.ballVel.x s.ballVel.y < 2) →
        (afterUpdate s).ballStatic = true
        ∧ (s.scored = false →
            (afterUpdate s).score = 0
            ∧ (afterUpdate s).callbackLog = 0 :: s.callbackLog))
    ∧ (¬ (ballOutOfBounds s ∨ hypot s.ballVel.x s.ballVel.y < 2) →
        (afterUpdate s).ballStatic = false ∧ (afterUpdate s).score = s.score) := by
  unfold afterUpdate
  dsimp only
  have hs1 : ∀ t : GameState,
      t = (if s.ballStatic = false ∧ s.ballVel.y < -4 then
             { s with hadUpwardMotion := true } else s) →
      t.ballPos = s.ballPos ∧ t.ballVel = s.ballVel ∧ t.ballStatic = s.ballStatic
        ∧ t.score = s.score ∧ t.scored = s.scored ∧ t.callbackLog = s.callbackLog
        ∧ t.viewportWidth = s.viewportWidth ∧ t.viewportHeight = s.viewportHeight := by
    intro t ht
    subst ht
    split_ifs <;> exact ⟨rfl, rfl, rfl, rfl, rfl, rfl, rfl, rfl⟩
  obtain ⟨e1, e2, e3, e4, e5, e6, e7, e8⟩ := hs1 _ rfl
  obtain ⟨f1, f2, f3, f4, f5, f6, f7, f8, -, -⟩ :=
    applyPerspectiveScale_fields (if s.ballStatic = false ∧ s.ballVel.y < -4 then
      { s with hadUpwardMotion := true } else s)
  set s2 := applyPerspectiveScale (if s.ballStatic = false ∧ s.ballVel.y < -4 then
      { s with hadUpwardMotion := true } else s) with hs2def
  have g1 : s2.ballPos = s.ballPos := f1.trans e1
  have g2 : s2.ballVel = s.ballVel := f2.trans e2
  have g4 : s2.score = s.score := f4.trans e4
  have g5 : s2.scored = s.scored := f5.trans e5
  have g6 : s2.callbackLog = s.callbackLog := f6.trans e6
  have g7 : s2.viewportWidth = s.viewportWidth := f7.trans e7
  have g8 : s2.viewportHeight = s.viewportHeight := f8.trans e8
  have gstat : s2.ballStatic = false := by rw [f3, e3, h]
  rw [if_neg (by simp [gstat])]
  have hcond : (ballOutOfBounds s2 ∨ hypot s2.ballVel.x s2.ballVel.y < 2)
      ↔ (ballOutOfBounds s ∨ hypot s.ballVel.x s.ballVel.y < 2) := by
    unfold ballOutOfBounds
    rw [g1, g2, g7, g8]
  constructor
  · intro hc
    rw [if_pos (hcond.mpr hc)]
    refine ⟨(resetBall_effects s2 (!s2.scored)).1, fun hsc => ?_⟩
    have hz : s2.scored = false := by rw [g5, hsc]
    rw [hz, Bool.not_false]
    exact ⟨(resetBall_effects s2 true).2.2.2.2.2.2.2.2.1,
           by rw [(resetBall_effects s2 true).2.2.2.2.2.2.2.2.2.1, g6]⟩
  · intro hc
    rw [if_neg (fun hcc => hc (hcond.mp hcc))]
    exact ⟨gstat, g4⟩

theorem afterUpdate_resolution_witness :
    ({ exBase with ballStatic := false, ballPos := ⟨650, 300⟩ } : GameState).ballStatic
        = false
    ∧ ballOutOfBounds { exBase with ballStatic := false, ballPos := ⟨650, 300⟩ }
    ∧ (afterUpdate { exBase with ballStatic := false, ballPos := ⟨650, 300⟩ }).ballStatic
        = true
    ∧ (afterUpdate { exBase with ballStatic := false, ballPos := ⟨650, 300⟩ }).score = 0 := by
  have hb : ballOutOfBounds { exBase with ballStatic := false, ballPos := ⟨650, 300⟩ } := by
    unfold ballOutOfBounds
    right
    left
    show (650 : ℝ) > 400 + 200
    norm_num
  have h := afterUpdate_resolution { exBase with ballStatic := false, ballPos := ⟨650, 300⟩ } rfl
  exact ⟨rfl, hb, (h.1 (Or.inl hb)).1, ((h.1 (Or.inl hb)).2 rfl).1⟩

theorem shootBall_scale_fields (s : GameState) (d : Point) (h : s.ballStatic = true) :
    (shootBall s d).currentRadius = baseBallRadius
    ∧ (shootBall s d).currentSpriteScale = baseSpriteScale := by
  unfold shootBall resetBallScale
  simp only [h]
  rw [if_neg (show ¬ (true = false) by simp)]
  constructor <;> (split_ifs <;> rfl)

/-- C9: the accumulated sprite scale stays numerically consistent with
the tracked physical radius — currentSpriteScale = baseSpriteScale *
(currentRadius / baseBallRadius) — because every perspective rescale
multiplies the sprite scale by the same factor it applies to the body,
and every scale reset, reset, shot and accepted goal restores or
preserves the pair together. -/
theorem spriteConsistent_preserved (s : GameState) (m : Bool) (d : Point)
    (hr : s.currentRadius ≠ 0) :
    (spriteConsistent s → spriteConsistent (applyPerspectiveScale s))
    ∧ spriteConsistent (resetBallScale s)
    ∧ spriteConsistent (resetBall s m)
    ∧ (s.ballStatic = true → spriteConsistent (shootBall s d))
    ∧ (spriteConsistent s → spriteConsistent (handleGoal s)) := by
  have hbase : spriteConsistent (resetBallScale s) := by
    unfold spriteConsistent resetBallScale
    dsimp only
    norm_num [baseBallRadius]
  refine ⟨?_, hbase, ?_, ?_, ?_⟩
  · intro hinv
    unfold spriteConsistent applyPerspectiveScale
    dsimp only
    split_ifs with h1 h2
    · exact hinv
    · exact hinv
    · show s.currentSpriteScale
          * (baseBallRadius * perspectiveScale s.viewportHeight s.ballStart.y s.ballPos.y
              / s.currentRadius)
        = baseSpriteScale
          * (baseBallRadius * perspectiveScale s.viewportHeight s.ballStart.y s.ballPos.y
              / baseBallRadius)
      unfold spriteConsistent at hinv
      rw [hinv]
      have hb : baseBallRadius ≠ 0 := by norm_num [baseBallRadius]
      field_simp
      ring
  · unfold spriteConsistent
    rw [(resetBall_effects s m).2.2.2.2.1, (resetBall_effects s m).2.2.2.2.2.1]
    norm_num [baseBallRadius]
  · intro hst
    unfold spriteConsistent
    rw [(shootBall_scale_fields s d hst).1, (shootBall_scale_fields s d hst).2]
    norm_num [baseBallRadius]
  · intro hinv
    unfold handleGoal
    split_ifs <;> exact hinv

theorem spriteConsistent_preserved_witness :
    exBase.currentRadius ≠ 0
    ∧ spriteConsistent (resetBallScale exBase)
    ∧ spriteConsistent (resetBall exBase true) :=
  have h := spriteConsistent_preserved exBase true ⟨0, 0⟩
    (by norm_num [exBase, baseBallRadius])
  ⟨by norm_num [exBase, baseBallRadius], h.2.1, h.2.2.1⟩
